import Mathlib

/-!
Verification of the image-editor front end (App.tsx, geminiService).

The client-side canvas arithmetic and the React state transitions are
embedded as pure Lean functions over rational coordinates; asynchronous
callbacks are modelled by explicit start/finish transition functions and
a step relation over the editor state.
-/

/-- A 2-D point in CSS pixel coordinates, as produced by mouse events. -/
structure Point where
  x : ℚ
  y : ℚ
deriving DecidableEq, Repr

/-- A crop rectangle in displayed-image coordinates. -/
structure Rect where
  x : ℚ
  y : ℚ
  width : ℚ
  height : ℚ
deriving DecidableEq, Repr

/-- Embedding of `getCropRect` (App.tsx lines 25-36): returns the
rectangle spanned by the two drag points, or `none` when nothing is
selected or the selection is degenerate. -/
def getCropRect (isCropping : Bool) (cropStart cropEnd : Point) : Option Rect :=
  if isCropping = false ∧ cropStart.x = 0 ∧ cropEnd.x = 0 then none
  else
    let x := min cropStart.x cropEnd.x
    let y := min cropStart.y cropEnd.y
    let width := |cropStart.x - cropEnd.x|
    let height := |cropStart.y - cropEnd.y|
    if width = 0 ∨ height = 0 then none
    else some { x := x, y := y, width := width, height := height }

/-- An in-memory image: data URI plus MIME type (the `OriginalImage`
type of App.tsx). -/
structure OriginalImage where
  url : String
  mimeType : String
deriving DecidableEq, Repr

/-- The geometry of the `<img>` element inside the cropper: natural
(bitmap) size and displayed size. -/
structure CropImage where
  naturalWidth : ℚ
  naturalHeight : ℚ
  width : ℚ
  height : ℚ
deriving DecidableEq, Repr

/-- The arguments of the single `ctx.drawImage` call performed by
`handleConfirmCrop`, together with the dimensions given to the fresh
canvas. -/
structure DrawSpec where
  sourceX : ℚ
  sourceY : ℚ
  sourceWidth : ℚ
  sourceHeight : ℚ
  canvasWidth : ℚ
  canvasHeight : ℚ
deriving DecidableEq, Repr

/-- Outcome of confirming a crop: either the original URL is passed
through unchanged, or a region is rasterized into a new bitmap. -/
inductive CropOutcome where
  | passthrough (image : OriginalImage)
  | cropped (draw : DrawSpec) (mimeType : String)
deriving DecidableEq, Repr

/-- The MIME type of the image handed to `onCropComplete`. -/
def CropOutcome.outMime : CropOutcome → String
  | .passthrough image => image.mimeType
  | .cropped _ m => m

/-- Embedding of `handleConfirmCrop` (App.tsx lines 58-86).  `image` is
the `<img>` element (or `none` when the ref is unset); the drag state
is passed through to `getCropRect`.  A missing or degenerate selection
falls back to the uncropped URL labelled `image/png`; otherwise the
selected region, scaled from displayed to natural coordinates, is drawn
into a canvas of the scaled size and exported as PNG. -/
def handleConfirmCrop (image : Option CropImage) (imageUrl : String)
    (isCropping : Bool) (cropStart cropEnd : Point) : CropOutcome :=
  match image, getCropRect isCropping cropStart cropEnd with
  | none, _ => .passthrough { url := imageUrl, mimeType := "image/png" }
  | some _, none => .passthrough { url := imageUrl, mimeType := "image/png" }
  | some img, some cropRect =>
    if cropRect.width = 0 ∨ cropRect.height = 0 then
      .passthrough { url := imageUrl, mimeType := "image/png" }
    else
      let scaleX := img.naturalWidth / img.width
      let scaleY := img.naturalHeight / img.height
      let sourceX := cropRect.x * scaleX
      let sourceY := cropRect.y * scaleY
      let sourceWidth := cropRect.width * scaleX
      let sourceHeight := cropRect.height * scaleY
      .cropped
        { sourceX := sourceX, sourceY := sourceY,
          sourceWidth := sourceWidth, sourceHeight := sourceHeight,
          canvasWidth := sourceWidth, canvasHeight := sourceHeight }
        "image/png"

/-- Canvas horizontal text alignment. -/
inductive TextAlign where
  | left
  | center
  | right
deriving DecidableEq, Repr

/-- Canvas vertical text baseline. -/
inductive TextBaseline where
  | top
  | middle
  | bottom
deriving DecidableEq, Repr

/-- The overlay parameters of `applyTextOverlay`. -/
structure OverlayOptions where
  fontFamily : String
  fontSize : ℚ
  textColor : String
  textPosition : String
deriving DecidableEq, Repr

/-- A drawing command issued against the overlay canvas. -/
inductive CanvasOp where
  | drawImage (imageUrl : String)
  | fillText (text : String) (x y : ℚ) (align : TextAlign) (baseline : TextBaseline)
deriving DecidableEq, Repr

/-- The canvas produced by `applyTextOverlay`: its dimensions and the
ordered list of drawing commands executed on it. -/
structure OverlayCanvas where
  width : ℚ
  height : ℚ
  ops : List CanvasOp
deriving DecidableEq, Repr

/-- The anchor computation of `applyTextOverlay` (the `switch` on
`options.textPosition`, App.tsx lines 188-247), with
`padding = 0.05 * min (width, height)` already applied. -/
def overlayAnchor (textPosition : String) (w h : ℚ) :
    TextAlign × TextBaseline × ℚ × ℚ :=
  let padding := min w h * (5 / 100)
  if textPosition = "top-left" then (.left, .top, padding, padding)
  else if textPosition = "top-center" then (.center, .top, w / 2, padding)
  else if textPosition = "top-right" then (.right, .top, w - padding, padding)
  else if textPosition = "middle-left" then (.left, .middle, padding, h / 2)
  else if textPosition = "middle-right" then (.right, .middle, w - padding, h / 2)
  else if textPosition = "bottom-left" then (.left, .bottom, padding, h - padding)
  else if textPosition = "bottom-center" then (.center, .bottom, w / 2, h - padding)
  else if textPosition = "bottom-right" then (.right, .bottom, w - padding, h - padding)
  else (.center, .middle, w / 2, h / 2)

/-- Embedding of `applyTextOverlay` (App.tsx lines 159-259), in the case
where the source image loads: a fresh canvas of the image dimensions is
created, the source image is drawn onto it, and the text is drawn at
the anchor point; the source image itself is never written to. -/
def applyTextOverlay (imageUrl : String) (imgW imgH : ℚ) (text : String)
    (options : OverlayOptions) : OverlayCanvas :=
  let anchor := overlayAnchor options.textPosition imgW imgH
  { width := imgW
    height := imgH
    ops := [.drawImage imageUrl,
            .fillText text anchor.2.2.1 anchor.2.2.2 anchor.1 anchor.2.1] }

/-- The `ImageData` payload type of geminiService. -/
structure ImageData where
  base64Data : String
  mimeType : String
deriving DecidableEq, Repr

/-- The `GeneratedImageData` result type of geminiService. -/
structure GeneratedImageData where
  base64Data : String
  mimeType : String
deriving DecidableEq, Repr

/-- A part of a Gemini request or response: inline binary data or text. -/
inductive GeminiPart where
  | inlineData (data : String) (mimeType : String)
  | text (s : String)
deriving DecidableEq, Repr

/-- The aspect-ratio instruction of `editImageWithGemini` (geminiService
lines 55-58): a default "preserve the aspect ratio" sentence, overridden
for the two explicit ratios. -/
def aspectInstruction (aspect : String) : String :=
  let instruction := "\n\nPlease preserve the aspect ratio of the first image."
  if aspect = "16:9" ∨ aspect = "4:3" then
    "\n\nPlease generate the output image with a " ++ aspect ++ " aspect ratio."
  else instruction

/-- Embedding of the request assembly of `editImageWithGemini`
(geminiService lines 37-60): the primary image part, then the optional
background image part, then the final text part. -/
def editImageParts (original : ImageData) (prompt : String)
    (background : Option ImageData) (aspect : String) : List GeminiPart :=
  let parts := [GeminiPart.inlineData original.base64Data original.mimeType]
  let parts := parts ++
    match background with
    | some bg => [GeminiPart.inlineData bg.base64Data bg.mimeType]
    | none => []
  let finalPrompt := prompt ++ aspectInstruction aspect
  parts ++ [GeminiPart.text finalPrompt]

/-- The error message thrown when the response holds no image part. -/
def noImageMessage : String :=
  "No image was generated. The model may not have been able to fulfill the request. Please try a different prompt."

/-- The test `part.inlineData.mimeType.startsWith("image/")`, computed
on the character lists of the two strings. -/
def mimeIsImage (m : String) : Bool := "image/".data.isPrefixOf m.data

/-- The scan over `response.candidates[0].content.parts` (geminiService
lines 70-77): the first inline-data part whose MIME type starts with
image/ is returned. -/
def findImagePart : List GeminiPart → Option GeneratedImageData
  | [] => none
  | GeminiPart.inlineData d m :: rest =>
    if mimeIsImage m then some { base64Data := d, mimeType := m }
    else findImagePart rest
  | GeminiPart.text _ :: rest => findImagePart rest

/-- Embedding of the result extraction of `editImageWithGemini`: a found
image part resolves the promise, otherwise it rejects with the
no-image message. -/
def editImageResult (responseParts : List GeminiPart) :
    Except String GeneratedImageData :=
  match findImagePart responseParts with
  | some g => .ok g
  | none => .error noImageMessage

/-- A bitmap value flowing through the editor state.  A `url` is a data
URL held verbatim; `overlaid` marks the re-encoded result of
`applyTextOverlay` on a base image with the given overlay settings, so
that a passed-through value and a re-encoded one are distinguishable. -/
inductive ImageVal where
  | url (s : String)
  | overlaid (base : ImageVal) (text : String) (font : String)
      (size : ℚ) (color : String) (position : String)
deriving DecidableEq, Repr

/-- The React state of the `App` component (App.tsx lines 263-282),
plus `pendingRequests`, the number of `editImageWithGemini` calls whose
promise has not yet settled. -/
structure EditorState where
  uncroppedImage : Option String
  originalImage : Option OriginalImage
  backgroundImage : Option OriginalImage
  imageBeforeText : Option ImageVal
  editedImage : Option ImageVal
  prompt : String
  isLoading : Bool
  error : Option String
  textOverlay : String
  fontFamily : String
  fontSize : ℚ
  textColor : String
  textPosition : String
  isTextToolsVisible : Bool
  outputFormat : String
  aspect : String
  pendingRequests : ℕ
deriving DecidableEq, Repr

/-- The initial state of the `App` component. -/
def initState : EditorState :=
  { uncroppedImage := none
    originalImage := none
    backgroundImage := none
    imageBeforeText := none
    editedImage := none
    prompt := ""
    isLoading := false
    error := none
    textOverlay := ""
    fontFamily := "Arial"
    fontSize := 48
    textColor := "#ffffff"
    textPosition := "center"
    isTextToolsVisible := false
    outputFormat := "png"
    aspect := "original"
    pendingRequests := 0 }

/-- The validation error set by `handleGenerate`. -/
def promptUploadError : String :=
  "Please enter a prompt and upload an image first."

/-- The synchronous prefix of `handleGenerate` (App.tsx lines 353-362),
up to the point where the `editImageWithGemini` promise is created: the
guard on prompt and image, then the loading flag and the clearing of
the previous result.  A started call raises `pendingRequests`. -/
def handleGenerateStart (s : EditorState) : EditorState :=
  if s.prompt = "" ∨ s.originalImage = none then
    { s with error := some promptUploadError }
  else
    { s with isLoading := true
             error := none
             editedImage := none
             imageBeforeText := none
             pendingRequests := s.pendingRequests + 1 }

/-- The continuation of `handleGenerate` (App.tsx lines 363-388) once
the `editImageWithGemini` promise settles: on success the data URL of
the generated image becomes `imageBeforeText`; on rejection the error
banner is set; either way the `finally` block clears the loading
flag. -/
def handleGenerateFinish (s : EditorState)
    (result : Except String GeneratedImageData) : EditorState :=
  match result with
  | .ok g =>
    { s with imageBeforeText :=
               some (.url ("data:" ++ g.mimeType ++ ";base64," ++ g.base64Data))
             isLoading := false
             pendingRequests := s.pendingRequests - 1 }
  | .error msg =>
    { s with error := some ("Generation failed: " ++ msg)
             isLoading := false
             pendingRequests := s.pendingRequests - 1 }

/-- The truthiness of `textOverlay.trim()` (App.tsx line 399), computed
on the character list: true when some character is not whitespace. -/
def trimTruthy (s : String) : Bool :=
  s.data.any (fun c => !c.isWhitespace)

/-- The reactive text-overlay effect (App.tsx lines 392-413): no
generated image clears `editedImage`; a truthy trimmed overlay text
re-encodes the overlay rendering into `editedImage`; otherwise the
pre-text image is passed through verbatim. -/
def applyTextEffect (s : EditorState) : EditorState :=
  match s.imageBeforeText with
  | none => { s with editedImage := none }
  | some pre =>
    if trimTruthy s.textOverlay then
      let rendered := ImageVal.overlaid pre s.textOverlay s.fontFamily
        s.fontSize s.textColor s.textPosition
      { s with editedImage := some rendered }
    else
      { s with editedImage := some pre }

/-- The fixed sentence written into the prompt by
`handleBackgroundFileChange` (App.tsx line 335). -/
def backgroundPromptSentence : String :=
  "Replace the background of the first image with the second image."

/-- The success path of `handleBackgroundFileChange` (App.tsx lines
329-341): store the background image and overwrite the prompt. -/
def handleBackgroundFileChange (s : EditorState)
    (imageData : OriginalImage) : EditorState :=
  { s with backgroundImage := some imageData
           prompt := backgroundPromptSentence }

/-- Embedding of `removeBackgroundImage` (App.tsx lines 343-351): clear
the background image, and clear the prompt only when it still equals
the fixed background sentence. -/
def removeBackgroundImage (s : EditorState) : EditorState :=
  let s1 := { s with backgroundImage := none }
  if s1.prompt = backgroundPromptSentence then { s1 with prompt := "" }
  else s1

/-- User actions that can invoke `handleGenerate` or feed it state, and
the settling of an in-flight service call. -/
inductive AppAction where
  | setPrompt (p : String)
  | cropComplete (image : OriginalImage)
  | clickGenerate
  | pressKey (key : String)
  | requestSettles (result : Except String GeneratedImageData)

/-- One step of the application.  The editor footer (App.tsx lines
546-788) only renders when an original image is loaded, so the prompt
field and the buttons require `originalImage`.  The Generate button
(line 776-779) is disabled while `isLoading` or the prompt is empty;
the key handler of the prompt input (line 772) invokes `handleGenerate`
on Enter with no such guard. -/
def appStep (s : EditorState) (a : AppAction) : EditorState :=
  match a with
  | .setPrompt p =>
    if s.originalImage = none then s else { s with prompt := p }
  | .cropComplete image =>
    { s with originalImage := some image, uncroppedImage := none }
  | .clickGenerate =>
    if s.originalImage = none then s
    else if s.isLoading = true ∨ s.prompt = "" then s
    else handleGenerateStart s
  | .pressKey key =>
    if s.originalImage = none then s
    else if key = "Enter" then handleGenerateStart s
    else s
  | .requestSettles result =>
    if s.pendingRequests = 0 then s else handleGenerateFinish s result

/-- The states the application can reach from its initial state. -/
inductive Reachable : EditorState → Prop
  | init : Reachable initState
  | next {s : EditorState} (a : AppAction) :
      Reachable s → Reachable (appStep s a)

/-- What `handleDownload` (App.tsx lines 415-452) does once the edited
image loads: the target MIME type and encoder quality, whether the
canvas was first filled with opaque white, the drawn bitmap, and the
filename given to the anchor element. -/
structure DownloadSpec where
  mimeType : String
  quality : ℚ
  whiteFillFirst : Bool
  drawnImage : ImageVal
  filename : String
deriving DecidableEq, Repr

/-- Embedding of `handleDownload` (App.tsx lines 415-452): `none` when
no edited image exists (the early return), otherwise the re-encoding it
performs.  The white fill happens exactly for the jpeg format. -/
def handleDownload (editedImage : Option ImageVal)
    (outputFormat : String) : Option DownloadSpec :=
  match editedImage with
  | none => none
  | some img =>
    some
      { mimeType := "image/" ++ outputFormat
        quality := 95 / 100
        whiteFillFirst := outputFormat == "jpeg"
        drawnImage := img
        filename := "edited-image." ++ outputFormat }

/-- A user-selected file as the `FileReader` sees it: the data URI its
contents encode to, and its declared MIME type. -/
structure BrowserFile where
  contentsDataUrl : String
  fileType : String
deriving DecidableEq, Repr

/-- How the `FileReader` settles: the load event, or an error event
carrying a message. -/
inductive ReadOutcome where
  | load
  | err (message : String)
deriving DecidableEq, Repr

/-- Embedding of `fileToDataUrl` (App.tsx lines 145-157): on load the
promise resolves with the reader result as `url` and the file type as
`mimeType`; on a reader error it rejects with that error. -/
def fileToDataUrl (file : BrowserFile) (outcome : ReadOutcome) :
    Except String OriginalImage :=
  match outcome with
  | .load => .ok { url := file.contentsDataUrl, mimeType := file.fileType }
  | .err e => .error e

/-- A selection returned by `getCropRect` never has a zero side. -/
theorem getCropRect_some_sides (isCropping : Bool) (cropStart cropEnd : Point)
    (r : Rect) (h : getCropRect isCropping cropStart cropEnd = some r) :
    r.width ≠ 0 ∧ r.height ≠ 0 := by
  simp only [getCropRect] at h
  split_ifs at h with h1 h2
  all_goals first
    | exact Option.noConfusion h
    | (rw [Option.some.injEq] at h
       subst h
       push_neg at h2
       exact h2)

/-- C1: the crop rectangle spans the two drag points — its origin is
the coordinatewise minimum and its sides the absolute coordinate
differences — and is null exactly when a side is zero; confirming a
crop with a selected rectangle draws precisely that region, scaled by
naturalWidth/width and naturalHeight/height, into a canvas whose
dimensions are the scaled source width and height. -/
theorem crop_rect_and_confirm_correct (isCropping : Bool)
    (cropStart cropEnd : Point) (img : CropImage) (imageUrl : String) :
    (getCropRect isCropping cropStart cropEnd =
      if |cropStart.x - cropEnd.x| = 0 ∨ |cropStart.y - cropEnd.y| = 0 then none
      else some { x := min cropStart.x cropEnd.x
                  y := min cropStart.y cropEnd.y
                  width := |cropStart.x - cropEnd.x|
                  height := |cropStart.y - cropEnd.y| }) ∧
    (∀ r, getCropRect isCropping cropStart cropEnd = some r →
      handleConfirmCrop (some img) imageUrl isCropping cropStart cropEnd =
        .cropped
          { sourceX := r.x * (img.naturalWidth / img.width)
            sourceY := r.y * (img.naturalHeight / img.height)
            sourceWidth := r.width * (img.naturalWidth / img.width)
            sourceHeight := r.height * (img.naturalHeight / img.height)
            canvasWidth := r.width * (img.naturalWidth / img.width)
            canvasHeight := r.height * (img.naturalHeight / img.height) }
          "image/png") := by
  constructor
  · simp only [getCropRect]
    split_ifs with h1 h2 h3
    · rfl
    · exact absurd (Or.inl (by rw [h1.2.1, h1.2.2]; simp)) h2
    · rfl
    · rfl
  · intro r hr
    obtain ⟨hw, hh⟩ := getCropRect_some_sides isCropping cropStart cropEnd r hr
    simp only [handleConfirmCrop, hr]
    rw [if_neg (by push_neg; exact ⟨hw, hh⟩)]

/-- Witness for C1: a drag from (1,2) to (4,6) on a 50x40 display of a
100x80 bitmap is cropped to the doubled source rectangle. -/
theorem crop_rect_and_confirm_correct_witness :
    handleConfirmCrop (some ⟨100, 80, 50, 40⟩) "u" true ⟨1, 2⟩ ⟨4, 6⟩ =
      .cropped ⟨2, 4, 6, 8, 6, 8⟩ "image/png" := by
  have h := (crop_rect_and_confirm_correct true ⟨1, 2⟩ ⟨4, 6⟩
    ⟨100, 80, 50, 40⟩ "u").2 ⟨1, 2, 3, 4⟩ (by norm_num [getCropRect])
  rw [h]
  norm_num

/-- C2: the text overlay is drawn onto a fresh canvas holding a copy of
the input bitmap, at anchor coordinates computed from
padding = 0.05 * min (w, h): left anchors at x = padding, right anchors
at x = w - padding, horizontally centred anchors at x = w / 2, top
anchors at y = padding, bottom anchors at y = h - padding, vertically
middled anchors at y = h / 2, with matching textAlign and textBaseline;
every position outside the recognised set falls back to center. -/
theorem applyTextOverlay_anchor_correct (imageUrl : String) (w h : ℚ)
    (text : String) (options : OverlayOptions) :
    ((applyTextOverlay imageUrl w h text options).width = w ∧
     (applyTextOverlay imageUrl w h text options).height = h) ∧
    (options.textPosition = "top-left" →
      (applyTextOverlay imageUrl w h text options).ops =
        [.drawImage imageUrl,
         .fillText text (min w h * (5 / 100)) (min w h * (5 / 100)) .left .top]) ∧
    (options.textPosition = "top-center" →
      (applyTextOverlay imageUrl w h text options).ops =
        [.drawImage imageUrl,
         .fillText text (w / 2) (min w h * (5 / 100)) .center .top]) ∧
    (options.textPosition = "top-right" →
      (applyTextOverlay imageUrl w h text options).ops =
        [.drawImage imageUrl,
         .fillText text (w - min w h * (5 / 100)) (min w h * (5 / 100)) .right .top]) ∧
    (options.textPosition = "middle-left" →
      (applyTextOverlay imageUrl w h text options).ops =
        [.drawImage imageUrl,
         .fillText text (min w h * (5 / 100)) (h / 2) .left .middle]) ∧
    (options.textPosition = "middle-right" →
      (applyTextOverlay imageUrl w h text options).ops =
        [.drawImage imageUrl,
         .fillText text (w - min w h * (5 / 100)) (h / 2) .right .middle]) ∧
    (options.textPosition = "bottom-left" →
      (applyTextOverlay imageUrl w h text options).ops =
        [.drawImage imageUrl,
         .fillText text (min w h * (5 / 100)) (h - min w h * (5 / 100)) .left .bottom]) ∧
    (options.textPosition = "bottom-center" →
      (applyTextOverlay imageUrl w h text options).ops =
        [.drawImage imageUrl,
         .fillText text (w / 2) (h - min w h * (5 / 100)) .center .bottom]) ∧
    (options.textPosition = "bottom-right" →
      (applyTextOverlay imageUrl w h text options).ops =
        [.drawImage imageUrl,
         .fillText text (w - min w h * (5 / 100)) (h - min w h * (5 / 100)) .right .bottom]) ∧
    (options.textPosition ∉
        ["top-left", "top-center", "top-right", "middle-left",
         "middle-right", "bottom-left", "bottom-center", "bottom-right"] →
      (applyTextOverlay imageUrl w h text options).ops =
        [.drawImage imageUrl,
         .fillText text (w / 2) (h / 2) .center .middle]) := by
  refine ⟨⟨rfl, rfl⟩, ?_, ?_, ?_, ?_, ?_, ?_, ?_, ?_, ?_⟩ <;> intro hp
  case _ => simp [applyTextOverlay, overlayAnchor, hp]
  case _ => simp [applyTextOverlay, overlayAnchor, hp]
  case _ => simp [applyTextOverlay, overlayAnchor, hp]
  case _ => simp [applyTextOverlay, overlayAnchor, hp]
  case _ => simp [applyTextOverlay, overlayAnchor, hp]
  case _ => simp [applyTextOverlay, overlayAnchor, hp]
  case _ => simp [applyTextOverlay, overlayAnchor, hp]
  case _ => simp [applyTextOverlay, overlayAnchor, hp]
  case _ =>
    simp only [List.mem_cons, List.not_mem_nil, or_false, not_or] at hp
    obtain ⟨h1, h2, h3, h4, h5, h6, h7, h8⟩ := hp
    simp [applyTextOverlay, overlayAnchor, h1, h2, h3, h4, h5, h6, h7, h8]

/-- Witness for C2: a bottom-right overlay on a 200x100 canvas anchors
at (195, 95). -/
theorem applyTextOverlay_anchor_correct_witness :
    (applyTextOverlay "u" 200 100 "hi" ⟨"Arial", 48, "#fff", "bottom-right"⟩).ops =
      [.drawImage "u", .fillText "hi" 195 95 .right .bottom] := by
  have h := ((((((((applyTextOverlay_anchor_correct "u" 200 100 "hi"
    ⟨"Arial", 48, "#fff", "bottom-right"⟩).2).2).2).2).2).2).2).2.1 rfl
  rw [h]
  norm_num

/-- C3: the request part list is the primary image, then the background
image exactly when one is supplied, then the text part, whose text is
the user prompt followed by a 16:9 or 4:3 instruction for those two
aspect values and a preserve-the-aspect-ratio instruction otherwise. -/
theorem editImageParts_order (original : ImageData) (prompt : String)
    (background : Option ImageData) (aspect : String) :
    editImageParts original prompt background aspect =
      [GeminiPart.inlineData original.base64Data original.mimeType] ++
      (match background with
       | some bg => [GeminiPart.inlineData bg.base64Data bg.mimeType]
       | none => []) ++
      [GeminiPart.text (prompt ++
        (if aspect = "16:9" ∨ aspect = "4:3" then
          "\n\nPlease generate the output image with a " ++ aspect ++
            " aspect ratio."
         else "\n\nPlease preserve the aspect ratio of the first image."))] := by
  cases background <;> simp [editImageParts, aspectInstruction]

/-- A non-empty prompt and a loaded original image: the editor state in
which the Generate button is enabled. -/
def sampleImage : OriginalImage :=
  { url := "data:image/png;base64,QUJD", mimeType := "image/png" }

/-- The reachable state after uploading an image, typing a prompt, and
pressing Enter twice in a row in the prompt field. -/
def doubleEnterState : EditorState :=
  appStep (appStep (appStep (appStep initState (.cropComplete sampleImage))
    (.setPrompt "add a dog")) (.pressKey "Enter")) (.pressKey "Enter")

/-- Counterexample to C4: the Enter key handler of the prompt field
invokes handleGenerate without checking the loading flag, so two
presses of Enter leave two service calls in flight at a reachable
state. -/
theorem double_enter_two_pending :
    Reachable doubleEnterState ∧ doubleEnterState.pendingRequests = 2 :=
  ⟨Reachable.next _ (Reachable.next _ (Reachable.next _
      (Reachable.next _ Reachable.init))),
    by decide⟩

/-- C4 amended: while a request is in flight, clicking the Generate
button is a no-op (the button is disabled), but pressing Enter in the
prompt field with a non-empty prompt and a loaded image starts a second
concurrent call. -/
theorem generate_button_guarded_enter_not (s : EditorState)
    (h : s.isLoading = true) :
    appStep s .clickGenerate = s ∧
    (s.prompt ≠ "" → s.originalImage ≠ none →
      (appStep s (.pressKey "Enter")).pendingRequests =
        s.pendingRequests + 1) := by
  constructor
  · simp only [appStep]
    split_ifs with h1 h2
    · rfl
    · rfl
    · exact absurd (Or.inl h) h2
  · intro hp himg
    simp only [appStep, if_neg himg]
    rw [if_pos trivial]
    simp only [handleGenerateStart]
    rw [if_neg (fun hor => hor.elim hp himg)]

/-- The editor mid-request: image loaded, prompt typed, one call in
flight. -/
def loadingState : EditorState :=
  { initState with
      originalImage := some sampleImage
      prompt := "add a dog"
      isLoading := true
      pendingRequests := 1 }

/-- Witness for the amended C4: in a loading state with one pending
call, the button does nothing and Enter raises the pending count
to two. -/
theorem generate_button_guarded_enter_not_witness :
    appStep loadingState .clickGenerate = loadingState ∧
    (appStep loadingState (.pressKey "Enter")).pendingRequests = 2 :=
  ⟨(generate_button_guarded_enter_not loadingState (by rfl)).1,
   (generate_button_guarded_enter_not loadingState (by rfl)).2
     (by decide) (by decide)⟩

/-- C5: a download of an existing edited image re-encodes the bitmap as
image/(format) at quality 0.95 under the filename
edited-image.(format), and the canvas is pre-filled with opaque white
exactly when the format is jpeg. -/
theorem handleDownload_encoding (img : ImageVal) (fmt : String)
    (hfmt : fmt = "png" ∨ fmt = "jpeg" ∨ fmt = "webp") :
    ∃ d, handleDownload (some img) fmt = some d ∧
      d.mimeType = "image/" ++ fmt ∧
      d.quality = 95 / 100 ∧
      d.filename = "edited-image." ++ fmt ∧
      d.drawnImage = img ∧
      (d.whiteFillFirst = true ↔ fmt = "jpeg") := by
  refine ⟨_, rfl, rfl, rfl, rfl, rfl, ?_⟩
  simp [handleDownload]

/-- Witness for C5: downloading as jpeg pre-fills with white; the spec
fields are as stated. -/
theorem handleDownload_encoding_witness :
    (("jpeg" = "png" ∨ "jpeg" = "jpeg" ∨ "jpeg" = "webp") : Prop) ∧
    ∃ d, handleDownload (some (.url "e")) "jpeg" = some d ∧
      d.mimeType = "image/" ++ "jpeg" ∧
      d.quality = 95 / 100 ∧
      d.filename = "edited-image." ++ "jpeg" ∧
      d.drawnImage = .url "e" ∧
      (d.whiteFillFirst = true ↔ "jpeg" = "jpeg") :=
  ⟨Or.inr (Or.inl rfl),
   handleDownload_encoding (.url "e") "jpeg" (Or.inr (Or.inl rfl))⟩

/-- C6: handleGenerate refuses to start on an empty prompt or missing
image; a started call sets the loading flag and clears the previous
result and error; a rejection (the empty response among them, which
rejects with the no-image message) sets the error banner to
Generation failed: followed by the message, clears the loading flag and
leaves the edited image unset; a fulfilled call makes the generated
data URL the pre-text image. -/
theorem handleGenerate_lifecycle (s : EditorState) (msg : String)
    (g : GeneratedImageData) (responseParts : List GeminiPart) :
    ((s.prompt = "" ∨ s.originalImage = none) →
      handleGenerateStart s = { s with error := some promptUploadError }) ∧
    (s.prompt ≠ "" → s.originalImage ≠ none →
      (handleGenerateStart s).isLoading = true ∧
      (handleGenerateStart s).error = none ∧
      (handleGenerateStart s).editedImage = none ∧
      (handleGenerateStart s).imageBeforeText = none) ∧
    (findImagePart responseParts = none →
      editImageResult responseParts = .error noImageMessage) ∧
    (s.prompt ≠ "" → s.originalImage ≠ none →
      (handleGenerateFinish (handleGenerateStart s) (.error msg)).error =
        some ("Generation failed: " ++ msg) ∧
      (handleGenerateFinish (handleGenerateStart s) (.error msg)).isLoading =
        false ∧
      (handleGenerateFinish (handleGenerateStart s) (.error msg)).editedImage =
        none ∧
      (handleGenerateFinish (handleGenerateStart s)
          (.error msg)).imageBeforeText = none) ∧
    ((handleGenerateFinish s (.ok g)).imageBeforeText =
        some (.url ("data:" ++ g.mimeType ++ ";base64," ++ g.base64Data)) ∧
      (handleGenerateFinish s (.ok g)).isLoading = false) := by
  refine ⟨?_, ?_, ?_, ?_, rfl, rfl⟩
  · intro hor
    simp [handleGenerateStart, hor]
  · intro hp himg
    simp only [handleGenerateStart]
    rw [if_neg (fun hor => hor.elim hp himg)]
    simp
  · intro hnone
    simp [editImageResult, hnone]
  · intro hp himg
    simp only [handleGenerateStart, handleGenerateFinish]
    rw [if_neg (fun hor => hor.elim hp himg)]
    simp

/-- Witness for C6: from the empty initial state generation refuses to
start, and from a ready state a rejected call produces the error banner
with the loading flag down and no edited image. -/
theorem handleGenerate_lifecycle_witness :
    (handleGenerateStart initState =
      { initState with error := some promptUploadError }) ∧
    ((handleGenerateFinish (handleGenerateStart
        { initState with
            originalImage := some sampleImage
            prompt := "add a dog" }) (.error "boom")).error =
      some "Generation failed: boom") ∧
    editImageResult [.text "no luck here"] = .error noImageMessage :=
  ⟨(handleGenerate_lifecycle initState "m" ⟨"d", "image/png"⟩ []).1
      (Or.inl rfl),
   ((handleGenerate_lifecycle
      { initState with
          originalImage := some sampleImage
          prompt := "add a dog" } "boom" ⟨"d", "image/png"⟩ []).2.2.2.1
      (by decide) (by decide)).1,
   (handleGenerate_lifecycle initState "m" ⟨"d", "image/png"⟩
      [.text "no luck here"]).2.2.1 rfl⟩

/-- C7: fileToDataUrl resolves with the data URI read from the file as
url and the file MIME type as mimeType, and rejects exactly when the
reader reports an error. -/
theorem fileToDataUrl_resolution (file : BrowserFile)
    (outcome : ReadOutcome) :
    (outcome = .load →
      fileToDataUrl file outcome =
        .ok { url := file.contentsDataUrl, mimeType := file.fileType }) ∧
    (∀ e, outcome = .err e → fileToDataUrl file outcome = .error e) ∧
    (∀ e, fileToDataUrl file outcome = .error e → outcome = .err e) := by
  cases outcome <;> simp [fileToDataUrl]

/-- Witness for C7: a concrete file resolves on load with its own
contents and type. -/
theorem fileToDataUrl_resolution_witness :
    fileToDataUrl ⟨"data:image/jpeg;base64,QQ==", "image/jpeg"⟩ .load =
      .ok { url := "data:image/jpeg;base64,QQ==", mimeType := "image/jpeg" } :=
  (fileToDataUrl_resolution ⟨"data:image/jpeg;base64,QQ==", "image/jpeg"⟩
    .load).1 rfl

/-- C8: every image leaving the cropper is labelled image/png — a
degenerate or absent selection passes the original URL through but
reports image/png regardless of the uploaded type, and a selected crop
is re-encoded as PNG. -/
theorem confirmCrop_always_png (image : Option CropImage)
    (imageUrl : String) (isCropping : Bool) (cropStart cropEnd : Point) :
    (getCropRect isCropping cropStart cropEnd = none →
      handleConfirmCrop image imageUrl isCropping cropStart cropEnd =
        .passthrough { url := imageUrl, mimeType := "image/png" }) ∧
    (handleConfirmCrop image imageUrl isCropping cropStart cropEnd).outMime =
      "image/png" := by
  constructor
  · intro hnone
    cases image <;> simp [handleConfirmCrop, hnone]
  · rcases image with _ | img
    · rfl
    · rcases hrect : getCropRect isCropping cropStart cropEnd with _ | r
      · simp [handleConfirmCrop, hrect, CropOutcome.outMime]
      · by_cases hz : r.width = 0 ∨ r.height = 0
        · simp [handleConfirmCrop, hrect, hz, CropOutcome.outMime]
        · simp [handleConfirmCrop, hrect, hz, CropOutcome.outMime]

/-- Witness for C8: confirming with no drag at all passes the original
URL through as image/png. -/
theorem confirmCrop_always_png_witness :
    handleConfirmCrop (some ⟨100, 80, 50, 40⟩) "data:image/jpeg;base64,QQ=="
        false ⟨0, 0⟩ ⟨0, 0⟩ =
      .passthrough { url := "data:image/jpeg;base64,QQ=="
                     mimeType := "image/png" } :=
  (confirmCrop_always_png (some ⟨100, 80, 50, 40⟩)
    "data:image/jpeg;base64,QQ==" false ⟨0, 0⟩ ⟨0, 0⟩).1
    (by norm_num [getCropRect])

/-- C9: uploading a background image overwrites the prompt with the
fixed background sentence, and removing the background image clears the
prompt only when it still equals that sentence, leaving every other
piece of editor state unchanged. -/
theorem background_prompt_coupling (s : EditorState)
    (imageData : OriginalImage) :
    (handleBackgroundFileChange s imageData =
      { s with backgroundImage := some imageData
               prompt := backgroundPromptSentence }) ∧
    (s.prompt = backgroundPromptSentence →
      removeBackgroundImage s =
        { s with backgroundImage := none, prompt := "" }) ∧
    (s.prompt ≠ backgroundPromptSentence →
      removeBackgroundImage s = { s with backgroundImage := none }) := by
  refine ⟨rfl, ?_, ?_⟩
  · intro heq
    simp [removeBackgroundImage, heq]
  · intro hne
    simp [removeBackgroundImage, hne]

/-- Witness for C9: after a background upload the prompt is the fixed
sentence, and removal from a state with a different prompt keeps that
prompt. -/
theorem background_prompt_coupling_witness :
    (handleBackgroundFileChange
        { initState with prompt := "my own words" } sampleImage =
      { initState with
          backgroundImage := some sampleImage
          prompt := backgroundPromptSentence }) ∧
    (removeBackgroundImage
        { initState with
            backgroundImage := some sampleImage
            prompt := "my own words" } =
      { initState with prompt := "my own words" }) :=
  ⟨(background_prompt_coupling
      { initState with prompt := "my own words" } sampleImage).1,
   (background_prompt_coupling
      { initState with
          backgroundImage := some sampleImage
          prompt := "my own words" } sampleImage).2.2 (by decide)⟩

/-- C10: after the text effect settles, editedImage is null without a
pre-text image, is the very pre-text value when the trimmed overlay
text is empty, and is the overlay rendering otherwise — and the
underlying pre-text image itself is never modified by the effect. -/
theorem applyTextEffect_invariant (s : EditorState) :
    (s.imageBeforeText = none → (applyTextEffect s).editedImage = none) ∧
    (∀ pre, s.imageBeforeText = some pre → trimTruthy s.textOverlay = false →
      (applyTextEffect s).editedImage = some pre) ∧
    (∀ pre, s.imageBeforeText = some pre → trimTruthy s.textOverlay = true →
      (applyTextEffect s).editedImage =
        some (.overlaid pre s.textOverlay s.fontFamily s.fontSize
                s.textColor s.textPosition)) ∧
    (applyTextEffect s).imageBeforeText = s.imageBeforeText := by
  refine ⟨?_, ?_, ?_, ?_⟩
  · intro hnone
    simp [applyTextEffect, hnone]
  · intro pre hpre htrim
    simp [applyTextEffect, hpre, htrim]
  · intro pre hpre htrim
    simp [applyTextEffect, hpre, htrim]
  · simp only [applyTextEffect]
    cases s.imageBeforeText with
    | none => rfl
    | some pre => split_ifs <;> rfl

/-- Witness for C10: with whitespace-only overlay text the pre-text
image is passed through verbatim, and with real text the overlay
rendering appears. -/
theorem applyTextEffect_invariant_witness :
    ((applyTextEffect
        { initState with
            imageBeforeText := some (.url "d")
            textOverlay := "  " }).editedImage = some (.url "d")) ∧
    ((applyTextEffect
        { initState with
            imageBeforeText := some (.url "d")
            textOverlay := "hi" }).editedImage =
      some (.overlaid (.url "d") "hi" "Arial" 48 "#ffffff" "center")) :=
  ⟨(applyTextEffect_invariant
      { initState with
          imageBeforeText := some (.url "d")
          textOverlay := "  " }).2.1 (.url "d") rfl (by decide),
   (applyTextEffect_invariant
      { initState with
          imageBeforeText := some (.url "d")
          textOverlay := "hi" }).2.2.1 (.url "d") rfl (by decide)⟩
